import Mathlib

/-!
Verification of the fraud-detection client's request governor.

Shallow embedding of the API-service layer of the Fraud-Detection-Portal
repository (`src/pages/Home.tsx`, service section: `checkFraud`,
`retryWithBackoff`, `getRiskLevel`, `generateExplanation`,
`generateFeatureImportance`, `getModelStats`, `getTransactionHistory`,
`generateMockHistory`).

Modelling conventions:
* JavaScript numbers are modelled as `ℚ` (the claims never depend on
  floating-point rounding), clock timestamps as `ℤ` (epoch milliseconds).
* `Math.random()` draws are passed in explicitly; the contract of
  `Math.random` (a value in `[0, 1)`) appears as a hypothesis where needed.
* Fallible HTTP calls are values of `FetchOutcome`: either a transport
  error (`net`, a rejected `fetch` / failed JSON parse) or an HTTP
  response with a status code and parsed body.
* Errors thrown by the service are the inductive `ScoreError`.  The source
  distinguishes the rate-limit error by `error.message.includes('429') ||
  error.message.includes('Too Many Requests')`; the only throw site whose
  message contains either substring is the 429 branch
  (`'429 Too Many Requests - Rate limit exceeded'`), so the string test is
  modelled by the `rateLimited` tag.
* Cooperative suspension (`setTimeout`) is modelled by its ideal timing:
  a wait of `w` ms starting at time `t` resumes at time `t + w`.
-/

/-- Risk classification, the return type of `getRiskLevel`
(source: `'LOW' | 'MEDIUM' | 'HIGH' | 'CRITICAL'`). -/
inductive RiskLevel where
  | LOW
  | MEDIUM
  | HIGH
  | CRITICAL
deriving DecidableEq, Repr

/-- The `TransactionData` interface: the record submitted for scoring.
`type` is a plain string in the source (compared against the literals
`'CASH_OUT'` and `'TRANSFER'` in `generateExplanation`). -/
structure TransactionData where
  step : ℚ
  type : String
  amount : ℚ
  oldbalanceOrg : ℚ
  newbalanceOrig : ℚ
  oldbalanceDest : ℚ
  newbalanceDest : ℚ
deriving DecidableEq, Repr

/-- Source `getRiskLevel(probability)`: the four half-open risk bands. -/
def getRiskLevel (probability : ℚ) : RiskLevel :=
  if probability < 0.25 then .LOW
  else if probability < 0.5 then .MEDIUM
  else if probability < 0.8 then .HIGH
  else .CRITICAL

/-- The `explanations` array of `generateExplanation` after the five
conditional pushes, in push order. -/
def explanationRules (data : TransactionData) (probability : ℚ) :
    List String :=
  (if probability > 0.7 then ["🚨 High fraud probability detected"] else [])
  ++ (if data.amount > 10000 then
      ["💰 Large transaction amount increases risk"] else [])
  ++ (if data.type = "CASH_OUT" ∨ data.type = "TRANSFER" then
      ["🔄 Transaction type commonly associated with fraud"] else [])
  ++ (if data.oldbalanceOrg = 0 ∧ data.newbalanceOrig = 0 then
      ["⚠️ Suspicious balance patterns detected"] else [])
  ++ (if data.step > 500 then
      ["🕐 Transaction occurred during high-risk time period"] else [])

/-- Source `generateExplanation(data, probability)`: the rule-based explanation
list; when no rule fired, the single "appears normal" marker. -/
def generateExplanation (data : TransactionData) (probability : ℚ) :
    List String :=
  if explanationRules data probability = [] then
    ["✅ Transaction appears normal based on ML analysis"]
  else explanationRules data probability

/-- The constant `MIN_REQUEST_INTERVAL`: 2000 ms between requests. -/
def MIN_REQUEST_INTERVAL : ℤ := 2000

/-- The rate-limiting prologue of `checkFraud` (source lines 238-245):
given the recorded `lastRequestTime` and the clock value `now` at entry,
the time at which the request is actually dispatched (which is also the
value recorded as the new `lastRequestTime`).  If less than
`MIN_REQUEST_INTERVAL` has elapsed the caller suspends for the remaining
`waitTime`, so the dispatch happens at `now + waitTime`; otherwise it
happens immediately. -/
def nextDispatchTime (lastRequestTime now : ℤ) : ℤ :=
  let timeSinceLastRequest := now - lastRequestTime
  if timeSinceLastRequest < MIN_REQUEST_INTERVAL then
    now + (MIN_REQUEST_INTERVAL - timeSinceLastRequest)
  else now

/-- The trace of dispatch times produced by a sequence of `checkFraud`
calls arriving at the given clock times, threading the module-level
`lastRequestTime` state (each dispatch records its own time as the new
`lastRequestTime`). -/
def dispatchTimes (lastRequestTime : ℤ) : List ℤ → List ℤ
  | [] => []
  | now :: rest =>
    let d := nextDispatchTime lastRequestTime now
    d :: dispatchTimes d rest

/-- One step of the governor always lands at least the minimum interval
after the recorded last-dispatch time. -/
theorem nextDispatchTime_spaced (last now : ℤ) :
    last + MIN_REQUEST_INTERVAL ≤ nextDispatchTime last now := by
  simp only [nextDispatchTime, MIN_REQUEST_INTERVAL]
  split <;> omega

/-- C1: consecutive dispatch start times (including the previously
recorded one) are always at least `MIN_REQUEST_INTERVAL = 2000` ms apart:
`checkFraud` suspends for the remaining duration when called too early and
records the new dispatch time. -/
theorem checkFraud_dispatch_spacing (lastRequestTime : ℤ) (calls : List ℤ) :
    List.Chain' (fun a b => a + MIN_REQUEST_INTERVAL ≤ b)
      (lastRequestTime :: dispatchTimes lastRequestTime calls) := by
  induction calls generalizing lastRequestTime with
  | nil => exact List.chain'_singleton _
  | cons now rest ih =>
    simpa [dispatchTimes] using
      ⟨nextDispatchTime_spaced lastRequestTime now,
        ih (nextDispatchTime lastRequestTime now)⟩

/-- Errors thrown inside the service layer.  `rateLimited` is the 429
throw (`'429 Too Many Requests - Rate limit exceeded'`), `requestFailed`
the non-ok throw (`'API request failed: <status> <statusText>'`),
`transport` a rejected `fetch`/JSON parse, `maxRetriesExceeded` the final
throw of `retryWithBackoff`. -/
inductive ScoreError where
  | rateLimited
  | requestFailed (status : ℕ)
  | transport
  | maxRetriesExceeded
deriving DecidableEq, Repr

/-- Source `error.message?.includes('429') || error.message?.includes('Too Many
Requests')`: among the service's throw sites, only the 429 branch's
message contains either substring. -/
def isRateLimit : ScoreError → Bool
  | .rateLimited => true
  | _ => false

/-- Outcome of a single `fetch`: a transport-level rejection (`net`, which
also covers a failing `response.json()`), or an HTTP response with its
status code and parsed body. -/
inductive FetchOutcome (α : Type) where
  | net
  | http (status : ℕ) (body : α)
deriving DecidableEq, Repr

/-- Source `response.ok`: status in the range 200-299. -/
def statusOk (status : ℕ) : Bool := 200 ≤ status && status < 300

/-- The parsed JSON body of a scoring response; every field the service
reads is optional (`undefined` when absent). -/
structure ScoreBody where
  fraudProbability : Option ℚ
  fraud_probability : Option ℚ
  flagged : Option Bool
  confidence : Option ℚ
  modelVersion : Option String
  processingTime : Option ℚ
deriving DecidableEq, Repr

/-- The closure passed to `retryWithBackoff` by `checkFraud` (source lines
248-266): throw `rateLimited` on status 429, throw `requestFailed` on any
other non-ok status, otherwise return the parsed body. -/
def scoreAttempt : FetchOutcome ScoreBody → Except ScoreError ScoreBody
  | .net => .error .transport
  | .http status body =>
    if status = 429 then .error .rateLimited
    else if statusOk status then .ok body
    else .error (.requestFailed status)

/-- The loop body of `retryWithBackoff`, with `i` the 0-indexed attempt
counter.  The list holds the outcome each attempt would produce, one entry
per allowed attempt (so its length is `maxRetries`); the result pairs the
returned value or terminal error with the list of back-off delays slept.
A failure on the last allowed attempt is rethrown without a delay; the
trailing `'Max retries exceeded'` throw is reached only when the loop body
never runs (`maxRetries = 0`, the empty list). -/
def retryGo {β : Type} (baseDelay i : ℕ) :
    List (Except ScoreError β) → Except ScoreError β × List ℕ
  | [] => (.error .maxRetriesExceeded, [])
  | .ok v :: _ => (.ok v, [])
  | .error e :: rest =>
    match rest with
    | [] => (.error e, [])
    | _ :: _ =>
      let delay := if isRateLimit e then baseDelay * 2 ^ (i + 1)
                   else baseDelay * 2 ^ i
      let r := retryGo baseDelay (i + 1) rest
      (r.1, delay :: r.2)

/-- Source `retryWithBackoff(fn, maxRetries, baseDelay)`, with `fn`'s successive
outcomes supplied as a list of length `maxRetries`. -/
def retryWithBackoff {β : Type} (attempts : List (Except ScoreError β))
    (baseDelay : ℕ) : Except ScoreError β × List ℕ :=
  retryGo baseDelay 0 attempts

/-- The fixed feature set of `generateFeatureImportance`. -/
structure FeatureImportance where
  amount : ℚ
  type : ℚ
  oldbalanceOrg : ℚ
  newbalanceOrig : ℚ
  oldbalanceDest : ℚ
  newbalanceDest : ℚ
  step : ℚ
deriving DecidableEq, Repr

/-- Source `generateFeatureImportance(data)`: pseudo-random weights per feature;
`r` supplies the successive `Math.random()` draws. -/
def generateFeatureImportance (r : ℕ → ℚ) : FeatureImportance where
  amount := r 0 * 0.3 + 0.2
  type := r 1 * 0.25 + 0.15
  oldbalanceOrg := r 2 * 0.2 + 0.1
  newbalanceOrig := r 3 * 0.2 + 0.1
  oldbalanceDest := r 4 * 0.15 + 0.05
  newbalanceDest := r 5 * 0.15 + 0.05
  step := r 6 * 0.1 + 0.05

/-- The `FraudResult` interface. -/
structure FraudResult where
  fraudProbability : ℚ
  flagged : Bool
  confidence : ℚ
  riskLevel : RiskLevel
  explanation : List String
  featureImportance : FeatureImportance
  modelVersion : String
  processingTime : ℚ
deriving DecidableEq, Repr

/-- The `Math.random()` draws consumed by one `checkFraud` call, passed in
explicitly. -/
structure RandomDraws where
  confDraw : ℚ
  procDraw : ℚ
  mockProb : ℚ
  mockProc : ℚ
  featDraw : ℕ → ℚ

/-- JavaScript `x || d` for an optional numeric field: both `undefined`
and `0` are falsy and fall through to the default. -/
def jsNumOr (x : Option ℚ) (d : ℚ) : ℚ :=
  match x with
  | none => d
  | some v => if v = 0 then d else v

/-- JavaScript `x || d` for an optional string field: both `undefined` and
the empty string are falsy. -/
def jsStrOr (x : Option String) (d : String) : String :=
  match x with
  | none => d
  | some s => if s = "" then d else s

/-- Source expression `result.fraudProbability || result.fraud_probability || 0`. -/
def normProbability (body : ScoreBody) : ℚ :=
  jsNumOr body.fraudProbability (jsNumOr body.fraud_probability 0)

/-- The success-path result object of `checkFraud` (source lines 269-278).
`flagged` is `result.flagged || (…probability…) > 0.5`: a present `true`
short-circuits, while `false` and `undefined` are both falsy and fall
through to the derived comparison. -/
def scoreSuccess (data : TransactionData) (body : ScoreBody)
    (rng : RandomDraws) : FraudResult :=
  let p := normProbability body
  { fraudProbability := p
    flagged := match body.flagged with
      | some true => true
      | _ => decide (p > 0.5)
    confidence := jsNumOr body.confidence (rng.confDraw * 0.3 + 0.7)
    riskLevel := getRiskLevel p
    explanation := generateExplanation data p
    featureImportance := generateFeatureImportance rng.featDraw
    modelVersion := jsStrOr body.modelVersion "v2.1.0"
    processingTime := jsNumOr body.processingTime (rng.procDraw * 200 + 50) }

/-- The fixed warning string prepended on the degraded path. -/
def mockWarning : String :=
  "⚠️ API rate limit exceeded - showing simulated analysis"

/-- The degraded result object of `checkFraud` (source lines 285-299):
`mockProbability = Math.random() * 0.8`, and the explanation list is the
warning followed by `generateExplanation(...).slice(1)`. -/
def mockResult (data : TransactionData) (rng : RandomDraws) : FraudResult :=
  let mockProbability := rng.mockProb * 0.8
  { fraudProbability := mockProbability
    flagged := decide (mockProbability > 0.5)
    confidence := 0.85
    riskLevel := getRiskLevel mockProbability
    explanation :=
      mockWarning :: (generateExplanation data mockProbability).drop 1
    featureImportance := generateFeatureImportance rng.featDraw
    modelVersion := "v2.1.0-mock"
    processingTime := rng.mockProc * 100 + 25 }

/-- Source `checkFraud(transactionData)` after its rate-limiting prologue:
dispatch through `retryWithBackoff` with `maxRetries = 3` and
`baseDelay = 1000`; on success normalize the body, on a terminal error
whose message marks a rate limit return the mock result, otherwise
rethrow.  `attempts` gives the fetch outcome each attempt would see. -/
def checkFraud (data : TransactionData)
    (attempts : ℕ → FetchOutcome ScoreBody) (rng : RandomDraws) :
    Except ScoreError FraudResult :=
  let r := retryWithBackoff (((List.range 3).map attempts).map scoreAttempt) 1000
  match r.1 with
  | .ok body => .ok (scoreSuccess data body rng)
  | .error e => if isRateLimit e then .ok (mockResult data rng) else .error e

/-- C4: `getRiskLevel` is a pure step function onto the four levels with
half-open bands: `p < 0.25 ↦ LOW`, `0.25 ≤ p < 0.5 ↦ MEDIUM`,
`0.5 ≤ p < 0.8 ↦ HIGH`, `0.8 ≤ p ↦ CRITICAL`; in particular the boundary
values `0.25`, `0.5`, `0.8` map to the upper band. -/
theorem getRiskLevel_bands (p : ℚ) :
    (p < 0.25 → getRiskLevel p = .LOW) ∧
    (0.25 ≤ p → p < 0.5 → getRiskLevel p = .MEDIUM) ∧
    (0.5 ≤ p → p < 0.8 → getRiskLevel p = .HIGH) ∧
    (0.8 ≤ p → getRiskLevel p = .CRITICAL) ∧
    getRiskLevel 0.25 = .MEDIUM ∧
    getRiskLevel 0.5 = .HIGH ∧
    getRiskLevel 0.8 = .CRITICAL := by
  refine ⟨fun h => ?_, fun h1 h2 => ?_, fun h1 h2 => ?_, fun h => ?_,
    ?_, ?_, ?_⟩
  · simp only [getRiskLevel]
    rw [if_pos h]
  · simp only [getRiskLevel]
    rw [if_neg (by linarith), if_pos h2]
  · simp only [getRiskLevel]
    rw [if_neg (by linarith), if_neg (by linarith), if_pos h2]
  · simp only [getRiskLevel]
    rw [if_neg (by linarith), if_neg (by linarith), if_neg (by linarith)]
  · norm_num [getRiskLevel]
  · norm_num [getRiskLevel]
  · norm_num [getRiskLevel]

/-- Witness for `getRiskLevel_bands` at `p = 0.3`. -/
theorem getRiskLevel_bands_witness :
    ((0.25 : ℚ) ≤ 0.3 ∧ (0.3 : ℚ) < 0.5) ∧ getRiskLevel 0.3 = .MEDIUM :=
  ⟨⟨by norm_num, by norm_num⟩,
    (getRiskLevel_bands 0.3).2.1 (by norm_num) (by norm_num)⟩

/-- Sample transaction used to instantiate hypothesis-bearing theorems. -/
def sampleData : TransactionData :=
  { step := 1, type := "TRANSFER", amount := 20000, oldbalanceOrg := 1,
    newbalanceOrig := 1, oldbalanceDest := 0, newbalanceDest := 0 }

/-- A scoring body with every optional field absent. -/
def emptyBody : ScoreBody :=
  { fraudProbability := none, fraud_probability := none, flagged := none,
    confidence := none, modelVersion := none, processingTime := none }

/-- Concrete random draws (all zero). -/
def sampleRng : RandomDraws :=
  { confDraw := 0, procDraw := 0, mockProb := 0, mockProc := 0,
    featDraw := fun _ => 0 }

/-- C2: if every HTTP attempt returns status 429, `checkFraud` returns
successfully with the degraded mock result: its probability lies in
`[0, 0.8)`, `flagged` and `riskLevel` are derived from that probability by
the usual rules, `confidence` is the fixed `0.85`, the model version ends
in `-mock`, and the first explanation entry is the fixed warning. -/
theorem checkFraud_all429_mock (data : TransactionData)
    (attempts : ℕ → FetchOutcome ScoreBody) (rng : RandomDraws)
    (h : ∀ i, i < 3 → ∃ b, attempts i = FetchOutcome.http 429 b)
    (hr0 : 0 ≤ rng.mockProb) (hr1 : rng.mockProb < 1) :
    checkFraud data attempts rng = .ok (mockResult data rng) ∧
    0 ≤ (mockResult data rng).fraudProbability ∧
    (mockResult data rng).fraudProbability < 0.8 ∧
    (mockResult data rng).flagged
      = decide ((mockResult data rng).fraudProbability > 0.5) ∧
    (mockResult data rng).riskLevel
      = getRiskLevel (mockResult data rng).fraudProbability ∧
    (mockResult data rng).confidence = 0.85 ∧
    "-mock".data.isSuffixOf (mockResult data rng).modelVersion.data = true ∧
    (mockResult data rng).explanation.head? = some mockWarning := by
  obtain ⟨b0, h0⟩ := h 0 (by omega)
  obtain ⟨b1, h1⟩ := h 1 (by omega)
  obtain ⟨b2, h2⟩ := h 2 (by omega)
  refine ⟨?_, ?_, ?_, ?_, ?_, ?_, ?_, ?_⟩
  · simp [checkFraud, retryWithBackoff, List.range_succ, h0, h1, h2,
      scoreAttempt, retryGo, isRateLimit]
  · simpa [mockResult] using mul_nonneg hr0 (by norm_num)
  · simpa [mockResult] using by nlinarith
  · rfl
  · rfl
  · rfl
  · show "-mock".data.isSuffixOf "v2.1.0-mock".data = true
    decide
  · rfl

/-- Witness for `checkFraud_all429_mock`: every attempt is a 429. -/
theorem checkFraud_all429_mock_witness :
    ((∀ i, i < 3 → ∃ b, (fun _ => FetchOutcome.http 429 emptyBody) i
        = FetchOutcome.http 429 b) ∧
      0 ≤ sampleRng.mockProb ∧ sampleRng.mockProb < 1) ∧
    checkFraud sampleData (fun _ => FetchOutcome.http 429 emptyBody) sampleRng
      = .ok (mockResult sampleData sampleRng) := by
  refine ⟨⟨fun i _ => ⟨emptyBody, rfl⟩, le_refl 0, by norm_num [sampleRng]⟩, ?_⟩
  exact (checkFraud_all429_mock sampleData (fun _ => FetchOutcome.http 429 emptyBody)
    sampleRng (fun i _ => ⟨emptyBody, rfl⟩) (le_refl 0)
    (by norm_num [sampleRng])).1

/-- C10: on the rate-limit degraded path the risk level is never
`CRITICAL`: the mock probability lies below `0.8`, so the result carries
one of the three lower bands. -/
theorem mockResult_riskLevel_not_critical (data : TransactionData)
    (rng : RandomDraws) (hr0 : 0 ≤ rng.mockProb) (hr1 : rng.mockProb < 1) :
    (mockResult data rng).riskLevel ≠ .CRITICAL ∧
    ((mockResult data rng).riskLevel = .LOW ∨
      (mockResult data rng).riskLevel = .MEDIUM ∨
      (mockResult data rng).riskLevel = .HIGH) := by
  have hlt : rng.mockProb * 0.8 < 0.8 := by nlinarith
  have : (mockResult data rng).riskLevel = getRiskLevel (rng.mockProb * 0.8) := rfl
  rw [this]
  unfold getRiskLevel
  split_ifs with hA hB
  · exact ⟨by decide, Or.inl rfl⟩
  · exact ⟨by decide, Or.inr (Or.inl rfl)⟩
  · exact ⟨by decide, Or.inr (Or.inr rfl)⟩

/-- Witness for `mockResult_riskLevel_not_critical` at the zero draws. -/
theorem mockResult_riskLevel_not_critical_witness :
    (0 ≤ sampleRng.mockProb ∧ sampleRng.mockProb < 1) ∧
    (mockResult sampleData sampleRng).riskLevel ≠ .CRITICAL :=
  ⟨⟨le_refl 0, by norm_num [sampleRng]⟩,
    (mockResult_riskLevel_not_critical sampleData sampleRng (le_refl 0)
      (by norm_num [sampleRng])).1⟩

/-- C3: if every attempt fails with a non-rate-limit error, `checkFraud`
propagates the failure of the last attempt to the caller: no degraded mock
result is produced. -/
theorem checkFraud_nonRateLimit_propagates (data : TransactionData)
    (attempts : ℕ → FetchOutcome ScoreBody) (rng : RandomDraws)
    (h : ∀ i, i < 3 →
      ∃ e, scoreAttempt (attempts i) = .error e ∧ isRateLimit e = false) :
    ∃ e, checkFraud data attempts rng = .error e ∧
      scoreAttempt (attempts 2) = .error e ∧ isRateLimit e = false := by
  obtain ⟨e0, h0, f0⟩ := h 0 (by omega)
  obtain ⟨e1, h1, f1⟩ := h 1 (by omega)
  obtain ⟨e2, h2, f2⟩ := h 2 (by omega)
  refine ⟨e2, ?_, h2, f2⟩
  simp [checkFraud, retryWithBackoff, List.range_succ, h0, h1, h2, retryGo, f2]

/-- Witness for `checkFraud_nonRateLimit_propagates`: status 500 on all
three attempts. -/
theorem checkFraud_nonRateLimit_propagates_witness :
    (∀ i, i < 3 →
      ∃ e, scoreAttempt ((fun _ => FetchOutcome.http 500 emptyBody) i)
          = .error e ∧ isRateLimit e = false) ∧
    ∃ e, checkFraud sampleData (fun _ => FetchOutcome.http 500 emptyBody)
        sampleRng = .error e ∧
      scoreAttempt ((fun _ => FetchOutcome.http 500 emptyBody) 2)
          = .error e ∧ isRateLimit e = false := by
  refine ⟨fun i _ => ⟨.requestFailed 500, rfl, rfl⟩, ?_⟩
  exact checkFraud_nonRateLimit_propagates sampleData
    (fun _ => FetchOutcome.http 500 emptyBody) sampleRng
    (fun i _ => ⟨.requestFailed 500, rfl, rfl⟩)

/-- The delay slept after a failed non-final attempt at position `i` of
the loop, for a loop started at counter `i0`, assuming every attempt up to
and including `i` fails (otherwise the loop never reaches `i`). -/
theorem retryGo_delays {β : Type} (base : ℕ)
    (attempts : List (Except ScoreError β)) :
    ∀ (i0 i : ℕ) (e : ScoreError),
      (∀ j, j ≤ i → ∃ ej, attempts.get? j = some (.error ej)) →
      attempts.get? i = some (.error e) →
      i + 1 < attempts.length →
      ((retryGo base i0 attempts).2).get? i
        = some (if isRateLimit e then base * 2 ^ (i0 + i + 1)
                else base * 2 ^ (i0 + i)) := by
  induction attempts with
  | nil =>
    intro i0 i e hall he hi
    simp at he
  | cons a rest ih =>
    intro i0 i e hall he hi
    obtain ⟨e0, he0⟩ := hall 0 (Nat.zero_le _)
    simp only [List.get?] at he0
    obtain rfl : a = Except.error e0 := by injection he0
    cases rest with
    | nil =>
      simp at hi
    | cons r rs =>
      cases i with
      | zero =>
        simp only [List.get?] at he
        obtain rfl : e0 = e := by injection he with h; injection h
        simp [retryGo]
      | succ i =>
        have hrec := ih (i0 + 1) i e
          (fun j hj => by simpa using hall (j + 1) (by omega))
          (by simpa using he)
          (by simp at hi ⊢; omega)
        have hA : i0 + 1 + i + 1 = i0 + (i + 1) + 1 := by omega
        have hB : i0 + 1 + i = i0 + (i + 1) := by omega
        rw [hA, hB] at hrec
        simpa [retryGo] using hrec

/-- C7: inside the retry loop with `baseDelay = 1000`, when the attempts
up to position `i` all fail and `i` is not the final attempt (0-indexed),
the delay slept after attempt `i` is exactly `1000 * 2 ^ i` for a generic
failure and `1000 * 2 ^ (i + 1)` for a rate-limit failure. -/
theorem retryWithBackoff_delay_schedule
    (attempts : List (Except ScoreError ScoreBody)) (i : ℕ) (e : ScoreError)
    (hall : ∀ j, j ≤ i → ∃ ej, attempts.get? j = some (.error ej))
    (he : attempts.get? i = some (.error e)) (hi : i + 1 < attempts.length) :
    ((retryWithBackoff attempts 1000).2).get? i
      = some (if isRateLimit e then 1000 * 2 ^ (i + 1) else 1000 * 2 ^ i) := by
  simpa using retryGo_delays 1000 attempts 0 i e hall he hi

/-- Witness for `retryWithBackoff_delay_schedule`: a rate-limited failure
at position 1 of three failing attempts sleeps `1000 * 2 ^ 2` ms. -/
theorem retryWithBackoff_delay_schedule_witness :
    ((∀ j, j ≤ 1 → ∃ ej, ([Except.error ScoreError.transport,
        Except.error ScoreError.rateLimited,
        Except.error (ScoreError.requestFailed 500)]
          : List (Except ScoreError ScoreBody)).get? j
        = some (.error ej)) ∧
      ([Except.error ScoreError.transport,
        Except.error ScoreError.rateLimited,
        Except.error (ScoreError.requestFailed 500)]
          : List (Except ScoreError ScoreBody)).get? 1
        = some (.error ScoreError.rateLimited) ∧
      1 + 1 < ([Except.error ScoreError.transport,
        Except.error ScoreError.rateLimited,
        Except.error (ScoreError.requestFailed 500)]
          : List (Except ScoreError ScoreBody)).length) ∧
    ((retryWithBackoff ([Except.error ScoreError.transport,
        Except.error ScoreError.rateLimited,
        Except.error (ScoreError.requestFailed 500)]
          : List (Except ScoreError ScoreBody)) 1000).2).get? 1
      = some (if isRateLimit ScoreError.rateLimited then 1000 * 2 ^ (1 + 1)
              else 1000 * 2 ^ 1) := by
  refine ⟨⟨?_, rfl, by decide⟩, ?_⟩
  · intro j hj
    match j, hj with
    | 0, _ => exact ⟨ScoreError.transport, rfl⟩
    | 1, _ => exact ⟨ScoreError.rateLimited, rfl⟩
  · exact retryWithBackoff_delay_schedule
      [Except.error ScoreError.transport, Except.error ScoreError.rateLimited,
        Except.error (ScoreError.requestFailed 500)]
      1 ScoreError.rateLimited
      (fun j hj => by
        match j, hj with
        | 0, _ => exact ⟨ScoreError.transport, rfl⟩
        | 1, _ => exact ⟨ScoreError.rateLimited, rfl⟩)
      rfl (by decide)

/-- The function `generateExplanation` never returns the empty list. -/
theorem generateExplanation_ne_nil (data : TransactionData) (p : ℚ) :
    generateExplanation data p ≠ [] := by
  unfold generateExplanation
  split
  · simp
  · assumption

/-- C5 (amended): on the degraded path the warning string replaces the
first derived explanation: the list is the warning followed by the tail of
`generateExplanation`'s output (its first entry is dropped by
`.slice(1)`), so the degraded list has the same length as the derived
one. -/
theorem mockResult_explanation_replaces_first (data : TransactionData)
    (rng : RandomDraws) :
    (mockResult data rng).explanation
      = mockWarning :: (generateExplanation data (rng.mockProb * 0.8)).drop 1 ∧
    (mockResult data rng).explanation.length
      = (generateExplanation data (rng.mockProb * 0.8)).length ∧
    (mockResult data rng).explanation.head? = some mockWarning := by
  refine ⟨rfl, ?_, rfl⟩
  have h := generateExplanation_ne_nil data (rng.mockProb * 0.8)
  show (mockWarning ::
      (generateExplanation data (rng.mockProb * 0.8)).drop 1).length = _
  cases hg : generateExplanation data (rng.mockProb * 0.8) with
  | nil => exact absurd hg h
  | cons a l => simp

/-- C5 counterexample: at a concrete input whose derived explanation list
has two entries, the degraded explanation list is not the warning followed
by all derived explanations (the first derived entry is dropped). -/
theorem mockResult_explanation_counterexample :
    (mockResult sampleData sampleRng).explanation
      ≠ mockWarning :: generateExplanation sampleData
          ((mockResult sampleData sampleRng).fraudProbability) := by
  have hm : (mockResult sampleData sampleRng).fraudProbability = 0 := by
    norm_num [mockResult, sampleRng]
  have hexp : generateExplanation sampleData 0
      = ["💰 Large transaction amount increases risk",
         "🔄 Transaction type commonly associated with fraud"] := by
    norm_num [generateExplanation, explanationRules, sampleData]
    simp
  intro h
  have hlen := congrArg List.length h
  rw [hm, hexp] at hlen
  have hl : (mockResult sampleData sampleRng).explanation
      = mockWarning :: (generateExplanation sampleData 0).drop 1 := by
    have := (mockResult_explanation_replaces_first sampleData sampleRng).1
    simpa [show sampleRng.mockProb * 0.8 = 0 by norm_num [sampleRng]] using this
  rw [hl, hexp] at hlen
  simp at hlen

/-- A scoring body carrying an explicit `flagged: false` together with a
high probability. -/
def flaggedFalseBody : ScoreBody :=
  { fraudProbability := some 0.9, fraud_probability := none,
    flagged := some false, confidence := none, modelVersion := none,
    processingTime := none }

/-- C6 counterexample: a response that contains `flagged: false` with
probability `0.9` yields a result whose `flagged` is `true` — the `||`
treats the explicit `false` as falsy and derives from the probability,
so `flagged` is not taken from the response whenever it is present. -/
theorem scoreSuccess_flagged_counterexample :
    flaggedFalseBody.flagged = some false ∧
    (scoreSuccess sampleData flaggedFalseBody sampleRng).flagged = true := by
  refine ⟨rfl, ?_⟩
  norm_num [scoreSuccess, flaggedFalseBody, normProbability, jsNumOr]

/-- C6 (amended): the result's `flagged` is `true` iff the response's
`flagged` field is present and `true`, or the normalized probability
exceeds `0.5`; an explicit `false` in the response does not suppress the
derived comparison. -/
theorem scoreSuccess_flagged_semantics (data : TransactionData)
    (body : ScoreBody) (rng : RandomDraws) :
    (scoreSuccess data body rng).flagged = true ↔
      body.flagged = some true ∨ normProbability body > 0.5 := by
  cases hb : body.flagged with
  | none => simp [scoreSuccess, hb]
  | some b => cases b <;> simp [scoreSuccess, hb]

/-- The model-statistics record returned by `getModelStats`. -/
structure ModelStats where
  accuracy : ℚ
  precision : ℚ
  «recall» : ℚ
  f1Score : ℚ
  totalTransactions : ℕ
  fraudDetected : ℕ
  falsePositives : ℕ
  lastUpdated : String
deriving DecidableEq, Repr

/-- The fixed fallback statistics record (source lines 317-326);
`lastUpdated` is the current time serialized by the caller's clock. -/
def fallbackStats (nowIso : String) : ModelStats where
  accuracy := 0.94
  precision := 0.89
  «recall» := 0.92
  f1Score := 0.905
  totalTransactions := 15847
  fraudDetected := 1247
  falsePositives := 89
  lastUpdated := nowIso

/-- Source `getModelStats()`: single GET; returns the parsed body only on an ok
response, and the fixed fallback on a transport error, a non-ok status, or
a body that fails to parse (all of which fall through to the mock
return). -/
def getModelStats (resp : FetchOutcome ModelStats) (nowIso : String) :
    ModelStats :=
  match resp with
  | .net => fallbackStats nowIso
  | .http status body =>
    if statusOk status then body else fallbackStats nowIso

/-- A transaction-history record (the shape produced by
`generateMockHistory`); the ISO timestamp string is modelled by its epoch
value in ms (`toISOString`/`getTime` round-trip is order-preserving). -/
structure TxRecord where
  id : String
  timestamp : ℚ
  amount : ℚ
  type : String
  fraudProbability : ℚ
  flagged : Bool
  riskLevel : RiskLevel
deriving DecidableEq, Repr

/-- The `Math.random()` streams consumed by `generateMockHistory`, one
draw per loop iteration and call site. -/
structure HistoryDraws where
  probDraw : ℕ → ℚ
  timeDraw : ℕ → ℚ
  amountDraw : ℕ → ℚ
  typeDraw : ℕ → ℚ

/-- The `types` array of `generateMockHistory`. -/
def historyTypes : List String :=
  ["TRANSFER", "CASH_OUT", "PAYMENT", "CASH_IN", "DEBIT"]

/-- The record pushed by iteration `i` of `generateMockHistory`'s loop. -/
def mockHistoryEntry (nowMs : ℤ) (rnd : HistoryDraws) (i : ℕ) : TxRecord :=
  let fraudProb := rnd.probDraw i
  { id := "tx_" ++ toString nowMs ++ "_" ++ toString i
    timestamp := (nowMs : ℚ) - rnd.timeDraw i * (7 * 24 * 60 * 60 * 1000)
    amount := rnd.amountDraw i * 50000 + 100
    type := historyTypes.getD
      (Int.floor (rnd.typeDraw i * (historyTypes.length : ℚ))).toNat ""
    fraudProbability := fraudProb
    flagged := decide (fraudProb > 0.5)
    riskLevel := getRiskLevel fraudProb }

/-- Source `generateMockHistory(limit)`: `limit` pseudo-random records, then
sorted by the comparator `(a, b) => b.timestamp - a.timestamp`, i.e. into
descending timestamp order. -/
def generateMockHistory (limit : ℕ) (nowMs : ℤ) (rnd : HistoryDraws) :
    List TxRecord :=
  ((List.range limit).map (mockHistoryEntry nowMs rnd)).mergeSort
    (fun a b => decide (b.timestamp ≤ a.timestamp))

/-- Source `getTransactionHistory(limit)`: single GET; the parsed body on an ok
response, otherwise (error or non-ok status) the synthesized history. -/
def getTransactionHistory (resp : FetchOutcome (List TxRecord))
    (limit : ℕ) (nowMs : ℤ) (rnd : HistoryDraws) : List TxRecord :=
  match resp with
  | .net => generateMockHistory limit nowMs rnd
  | .http status body =>
    if statusOk status then body else generateMockHistory limit nowMs rnd

/-- A fetch outcome on which the source's `if (response.ok) return …`
path is not taken: a transport error or a non-ok status. -/
def FetchFailed {α : Type} : FetchOutcome α → Prop
  | .net => True
  | .http status _ => statusOk status = false

/-- Concrete all-zero history draws. -/
def sampleHistoryDraws : HistoryDraws :=
  { probDraw := fun _ => 0, timeDraw := fun _ => 0,
    amountDraw := fun _ => 0, typeDraw := fun _ => 0 }

/-- Membership in the synthesized history: exactly the records produced by
the loop iterations `0 … limit - 1`. -/
theorem mem_generateMockHistory (limit : ℕ) (nowMs : ℤ) (rnd : HistoryDraws)
    (r : TxRecord) :
    r ∈ generateMockHistory limit nowMs rnd ↔
      ∃ i, i < limit ∧ r = mockHistoryEntry nowMs rnd i := by
  unfold generateMockHistory
  rw [List.mem_mergeSort]
  simp [eq_comm]

/-- C8: when the history fetch fails (transport error or non-ok status),
`getTransactionHistory(limit)` returns the synthesized history: exactly
`limit` records, sorted descending by timestamp, each with `flagged`
derived as `probability > 0.5`, `riskLevel` derived by `getRiskLevel`, and
a timestamp within the trailing 7 days of `nowMs`. -/
theorem getTransactionHistory_failure_mock
    (resp : FetchOutcome (List TxRecord)) (limit : ℕ) (nowMs : ℤ)
    (rnd : HistoryDraws) (hfail : FetchFailed resp)
    (ht : ∀ i, 0 ≤ rnd.timeDraw i ∧ rnd.timeDraw i < 1) :
    getTransactionHistory resp limit nowMs rnd
      = generateMockHistory limit nowMs rnd ∧
    (getTransactionHistory resp limit nowMs rnd).length = limit ∧
    (getTransactionHistory resp limit nowMs rnd).Pairwise
      (fun a b => b.timestamp ≤ a.timestamp) ∧
    ∀ r ∈ getTransactionHistory resp limit nowMs rnd,
      r.flagged = decide (r.fraudProbability > 0.5) ∧
      r.riskLevel = getRiskLevel r.fraudProbability ∧
      (nowMs : ℚ) - 604800000 < r.timestamp ∧ r.timestamp ≤ (nowMs : ℚ) := by
  have heq : getTransactionHistory resp limit nowMs rnd
      = generateMockHistory limit nowMs rnd := by
    cases resp with
    | net => rfl
    | http status body =>
      have hs : statusOk status = false := hfail
      simp [getTransactionHistory, hs]
  refine ⟨heq, ?_, ?_, ?_⟩ <;> rw [heq]
  · simp [generateMockHistory, List.length_mergeSort]
  · have := @List.sorted_mergeSort TxRecord
      (fun a b => decide (b.timestamp ≤ a.timestamp))
      (fun a b c => by
        simp only [decide_eq_true_eq]
        intro h1 h2
        exact h2.trans h1)
      (fun a b => by
        simp only [Bool.or_eq_true, decide_eq_true_eq]
        exact le_total _ _)
      ((List.range limit).map (mockHistoryEntry nowMs rnd))
    simpa [generateMockHistory] using this
  · intro r hr
    rw [mem_generateMockHistory] at hr
    obtain ⟨i, hi, rfl⟩ := hr
    obtain ⟨h0, h1⟩ := ht i
    refine ⟨rfl, rfl, ?_, ?_⟩
    · show (nowMs : ℚ) - 604800000
        < (nowMs : ℚ) - rnd.timeDraw i * (7 * 24 * 60 * 60 * 1000)
      nlinarith
    · show (nowMs : ℚ) - rnd.timeDraw i * (7 * 24 * 60 * 60 * 1000)
        ≤ (nowMs : ℚ)
      nlinarith

/-- Witness for `getTransactionHistory_failure_mock`: a network failure
with `limit = 10` and all-zero draws. -/
theorem getTransactionHistory_failure_mock_witness :
    (FetchFailed (FetchOutcome.net : FetchOutcome (List TxRecord)) ∧
      ∀ i, 0 ≤ sampleHistoryDraws.timeDraw i ∧
        sampleHistoryDraws.timeDraw i < 1) ∧
    getTransactionHistory FetchOutcome.net 10 0 sampleHistoryDraws
      = generateMockHistory 10 0 sampleHistoryDraws ∧
    (getTransactionHistory FetchOutcome.net 10 0 sampleHistoryDraws).length
      = 10 := by
  refine ⟨⟨trivial, fun i => ⟨le_refl 0, by norm_num [sampleHistoryDraws]⟩⟩, ?_⟩
  have h := getTransactionHistory_failure_mock FetchOutcome.net 10 0
    sampleHistoryDraws trivial (fun i => ⟨le_refl 0, by norm_num [sampleHistoryDraws]⟩)
  exact ⟨h.1, h.2.1⟩

/-- C9: `getModelStats` and `getTransactionHistory` are total — they never
propagate an error.  On every failure path `getModelStats` returns the
fixed fallback record (accuracy 0.94, precision 0.89, recall 0.92,
f1Score 0.905, fixed counts) and `getTransactionHistory` returns the
synthesized history. -/
theorem stats_and_history_degrade (respS : FetchOutcome ModelStats)
    (respH : FetchOutcome (List TxRecord)) (nowIso : String) (limit : ℕ)
    (nowMs : ℤ) (rnd : HistoryDraws)
    (hS : FetchFailed respS) (hH : FetchFailed respH) :
    getModelStats respS nowIso = fallbackStats nowIso ∧
    (fallbackStats nowIso).accuracy = 0.94 ∧
    (fallbackStats nowIso).precision = 0.89 ∧
    (fallbackStats nowIso).«recall» = 0.92 ∧
    (fallbackStats nowIso).f1Score = 0.905 ∧
    (fallbackStats nowIso).totalTransactions = 15847 ∧
    (fallbackStats nowIso).fraudDetected = 1247 ∧
    (fallbackStats nowIso).falsePositives = 89 ∧
    getTransactionHistory respH limit nowMs rnd
      = generateMockHistory limit nowMs rnd := by
  refine ⟨?_, rfl, rfl, rfl, rfl, rfl, rfl, rfl, ?_⟩
  · cases respS with
    | net => rfl
    | http s b =>
      have hs : statusOk s = false := hS
      simp [getModelStats, hs]
  · cases respH with
    | net => rfl
    | http s b =>
      have hs : statusOk s = false := hH
      simp [getTransactionHistory, hs]

/-- Witness for `stats_and_history_degrade`: both fetches fail at the
transport level. -/
theorem stats_and_history_degrade_witness :
    (FetchFailed (FetchOutcome.net : FetchOutcome ModelStats) ∧
      FetchFailed (FetchOutcome.net : FetchOutcome (List TxRecord))) ∧
    getModelStats FetchOutcome.net "t" = fallbackStats "t" ∧
    getTransactionHistory FetchOutcome.net 10 0 sampleHistoryDraws
      = generateMockHistory 10 0 sampleHistoryDraws := by
  refine ⟨⟨trivial, trivial⟩, ?_⟩
  have h := stats_and_history_degrade FetchOutcome.net FetchOutcome.net "t"
    10 0 sampleHistoryDraws trivial trivial
  exact ⟨h.1, h.2.2.2.2.2.2.2.2⟩
